import Mathlib

set_option maxHeartbeats 1000000

/-!
Shallow embedding of the CSV-to-GPX converter core
(src/csv-to-gpx-converter.jsx): the timestamp normalizer `parseTimestamp`,
the CSV row parser `parseCSV`, the GPX serializer `createGPXXML`, and the
output-filename derivation of the conversion orchestrator.

JavaScript host builtins that the source calls (Date parsing,
toISOString, parseFloat, String.trim / split / replace) are modelled by
explicit Lean functions, each documented at its definition.
-/

/-- Model of a JavaScript number as this program uses it: NaN, the two
infinities, or an exact finite value. Finite values are carried as ℚ;
IEEE-754 double rounding is not modelled (no claim here depends on the
rounding of finite values, only on NaN / infinity / finiteness
classification and on which field is rendered where). -/
inductive JSNum where
  | nan : JSNum
  | inf : JSNum
  | negInf : JSNum
  | num (val : ℚ) : JSNum
deriving Repr, DecidableEq

/-- JS `isNaN` on a number: true exactly for NaN (infinities are NOT NaN). -/
def JSNum.isNaN : JSNum → Bool
  | .nan => true
  | _ => false

/-- JS `Number.isFinite`: true exactly for finite values. -/
def JSNum.isFinite : JSNum → Bool
  | .num _ => true
  | _ => false

/-- Numeric value of a decimal digit character. -/
def digitVal (c : Char) : ℕ := c.toNat - '0'.toNat

/-- Value of a list of decimal digit characters, most significant first. -/
def natOfDigits (ds : List Char) : ℕ :=
  ds.foldl (fun acc c => acc * 10 + digitVal c) 0

/-- Consume an optional leading sign, returning the sign and the rest. -/
def parseSign : List Char → Int × List Char
  | '+' :: rest => (1, rest)
  | '-' :: rest => (-1, rest)
  | cs => (1, cs)

/-- Does the character list start with the word "Infinity"? -/
def startsWithInfinityWord : List Char → Bool
  | 'I' :: 'n' :: 'f' :: 'i' :: 'n' :: 'i' :: 't' :: 'y' :: _ => true
  | _ => false

/-- The rational value `sgn * (ip + fp / 10 ^ flen) * 10 ^ e` of a decimal
literal with integer part `ip`, fraction digits worth `fp` over `flen`
places, and exponent `e`, built with `mkRat` over integer arithmetic. -/
def floatVal (sgn : Int) (ip fp flen : ℕ) (e : Int) : ℚ :=
  let numBase : Int := sgn * (((ip * 10 ^ flen + fp : ℕ) : Int))
  if 0 ≤ e then mkRat (numBase * ((10 ^ e.toNat : ℕ) : Int)) (10 ^ flen)
  else mkRat numBase (10 ^ flen * 10 ^ (-e).toNat)

/-- Value of an exponent suffix after the `e`/`E` marker: optional sign and
digits; an empty digit run contributes exponent 0 (JS parseFloat stops the
numeric literal before a bare `e`). -/
def expVal (r : List Char) : Int :=
  let sgncs := parseSign r
  let ds := sgncs.2.takeWhile Char.isDigit
  if ds = [] then 0 else sgncs.1 * (natOfDigits ds : Int)

/-- Model of the JS builtin `parseFloat`: skip leading whitespace, read an
optional sign, then either the word `Infinity` or the longest decimal
literal prefix (digits, optional fraction, optional exponent); trailing
garbage is ignored; NaN when no numeric prefix exists. Overflow of huge
exponents to IEEE infinity is not modelled (values stay exact rationals). -/
def parseFloatJS (s : String) : JSNum :=
  let cs := s.toList.dropWhile Char.isWhitespace
  let sgncs := parseSign cs
  let sgn := sgncs.1
  let cs1 := sgncs.2
  if startsWithInfinityWord cs1 then (if sgn = 1 then .inf else .negInf)
  else
    let intDs := cs1.takeWhile Char.isDigit
    let r1 := cs1.dropWhile Char.isDigit
    let fracDs :=
      match r1 with
      | '.' :: r => r.takeWhile Char.isDigit
      | _ => []
    if intDs = [] ∧ fracDs = [] then .nan
    else
      let r2 :=
        match r1 with
        | '.' :: r => r.dropWhile Char.isDigit
        | _ => r1
      let e : Int :=
        match r2 with
        | 'e' :: r => expVal r
        | 'E' :: r => expVal r
        | _ => 0
      .num (floatVal sgn (natOfDigits intDs) (natOfDigits fracDs) fracDs.length e)

/-- `parseFloat` applied to a row field that may be absent (JS `undefined`):
`parseFloat(undefined)` is NaN. -/
def parseFloatField : Option String → JSNum
  | none => .nan
  | some s => parseFloatJS s

/-- JS number-to-string conversion as used by template literals, for the
values this program renders. For finite values the exact rational is
rendered (integer, or `num/den`); the JS shortest-round-trip double
formatting is not reproduced — no claim depends on the digits chosen for a
finite value, only on which field's value is rendered in which slot. -/
def numToString : JSNum → String
  | .nan => "NaN"
  | .inf => "Infinity"
  | .negInf => "-Infinity"
  | .num q => if q.den = 1 then toString q.num else toString q.num ++ "/" ++ toString q.den

/-- Gregorian leap-year test. -/
def isLeapYear (y : ℕ) : Bool := (y % 4 = 0 ∧ y % 100 ≠ 0) ∨ y % 400 = 0

/-- Days in a month of the proleptic Gregorian calendar. -/
def daysInMonth (y m : ℕ) : ℕ :=
  if m = 2 then (if isLeapYear y then 29 else 28)
  else if m = 4 ∨ m = 6 ∨ m = 9 ∨ m = 11 then 30
  else 31

/-- Days since the Unix epoch (1970-01-01) of a proleptic Gregorian civil
date (the standard era-based conversion). -/
def daysFromCivil (y m d : Int) : Int :=
  let yy := if m ≤ 2 then y - 1 else y
  let era := yy.ediv 400
  let yoe := yy - era * 400
  let mp := (m + 9).emod 12
  let doy := (153 * mp + 2).ediv 5 + d - 1
  let doe := yoe * 365 + yoe.ediv 4 - yoe.ediv 100 + doy
  era * 146097 + doe - 719468

/-- Civil date (year, month, day) of a count of days since the Unix epoch
(inverse of `daysFromCivil`). -/
def civilFromDays (z0 : Int) : Int × Int × Int :=
  let z := z0 + 719468
  let era := z.ediv 146097
  let doe := z - era * 146097
  let yoe := (doe - doe.ediv 1460 + doe.ediv 36524 - doe.ediv 146096).ediv 365
  let y := yoe + era * 400
  let doy := doe - (365 * yoe + yoe.ediv 4 - yoe.ediv 100)
  let mp := (5 * doy + 2).ediv 153
  let d := doy - (153 * mp + 2).ediv 5 + 1
  let m := mp + (if mp < 10 then 3 else -9)
  (if m ≤ 2 then y + 1 else y, m, d)

/-- The decimal digit character for `n % 10`. -/
def digitChar (n : ℕ) : Char :=
  if n % 10 = 0 then '0' else if n % 10 = 1 then '1' else if n % 10 = 2 then '2'
  else if n % 10 = 3 then '3' else if n % 10 = 4 then '4' else if n % 10 = 5 then '5'
  else if n % 10 = 6 then '6' else if n % 10 = 7 then '7' else if n % 10 = 8 then '8'
  else '9'

/-- Character list of the canonical ISO-8601 UTC rendering of an epoch
instant, `YYYY-MM-DDTHH:mm:ss.sssZ`. Models the JS builtin
`Date.prototype.toISOString` on the 4-digit-year range to which the parse
model below restricts (JS expanded ±YYYYYY years are out of the modelled
range). -/
def toISOChars (ms : Int) : List Char :=
  let days := ms.ediv 86400000
  let msod := (ms.emod 86400000).toNat
  let ymd := civilFromDays days
  let y := ymd.1.toNat
  let mo := ymd.2.1.toNat
  let d := ymd.2.2.toNat
  let h := msod / 3600000
  let mi := msod / 60000 % 60
  let sec := msod / 1000 % 60
  let mil := msod % 1000
  [digitChar (y / 1000), digitChar (y / 100), digitChar (y / 10), digitChar y, '-',
   digitChar (mo / 10), digitChar mo, '-', digitChar (d / 10), digitChar d, 'T',
   digitChar (h / 10), digitChar h, ':', digitChar (mi / 10), digitChar mi, ':',
   digitChar (sec / 10), digitChar sec, '.',
   digitChar (mil / 100), digitChar (mil / 10), digitChar mil, 'Z']

/-- Model of `Date.prototype.toISOString` (see `toISOChars`). -/
def toISOString (ms : Int) : String := String.mk (toISOChars ms)

/-- Read exactly two decimal digits. -/
def read2 : List Char → Option (ℕ × List Char)
  | a :: b :: rest =>
    if a.isDigit ∧ b.isDigit then some (digitVal a * 10 + digitVal b, rest) else none
  | _ => none

/-- Read exactly four decimal digits. -/
def read4 : List Char → Option (ℕ × List Char)
  | a :: b :: c :: d :: rest =>
    if a.isDigit ∧ b.isDigit ∧ c.isDigit ∧ d.isDigit then
      some (((digitVal a * 10 + digitVal b) * 10 + digitVal c) * 10 + digitVal d, rest)
    else none
  | _ => none

/-- Expect one specific character. -/
def expectChar (c : Char) : List Char → Option (List Char)
  | x :: rest => if x = c then some rest else none
  | [] => none

/-- Milliseconds denoted by a nonempty run of fraction digits: the first
three digits, right-padded with zeros (further digits are truncated, as JS
engines do). -/
def msOfFrac : List Char → ℕ
  | [] => 0
  | [a] => digitVal a * 100
  | [a, b] => digitVal a * 100 + digitVal b * 10
  | a :: b :: c :: _ => digitVal a * 100 + digitVal b * 10 + digitVal c

/-- UTC offset designator at the end of a timestamp: `Z`, or `±HH:MM` /
`±HHMM` (colon optional, as browser Date parsers accept); the result is the
offset in minutes. Nothing may follow it. -/
def parseOffsetMinutes : List Char → Option Int
  | ['Z'] => some 0
  | c :: rest =>
    if c = '+' ∨ c = '-' then
      match read2 rest with
      | some (oh, r1) =>
        let r2 := if r1.headD ' ' = ':' then r1.tail else r1
        match read2 r2 with
        | some (om, []) =>
          if oh ≤ 23 ∧ om ≤ 59 then
            some ((if c = '+' then 1 else -1) * ((oh * 60 + om : ℕ) : Int))
          else none
        | _ => none
      | none => none
    else none
  | [] => none

/-- Fields of a parsed ISO-8601 date-time string. -/
structure DateParts where
  year : ℕ
  month : ℕ
  day : ℕ
  hour : ℕ
  minute : ℕ
  second : ℕ
  millis : ℕ
  offsetMinutes : Int
deriving Repr, DecidableEq

/-- Parse the seconds-and-fraction part (optional) and return
(seconds, milliseconds, rest). -/
def parseSecFrac (r : List Char) : Option (ℕ × ℕ × List Char) :=
  match r with
  | ':' :: rs =>
    match read2 rs with
    | none => none
    | some (sc, ra) =>
      match ra with
      | '.' :: rb =>
        let ds := rb.takeWhile Char.isDigit
        if ds = [] then none
        else some (sc, msOfFrac ds, rb.dropWhile Char.isDigit)
      | _ => some (sc, 0, ra)
  | _ => some (0, 0, r)

/-- Parse an ISO-8601 date-time string with explicit UTC offset into its
fields: `YYYY-MM-DDTHH:mm[:ss[.f+]](Z|±HH[:]MM)`, with calendar-valid
components. -/
def parseDateParts (s : String) : Option DateParts := do
  let (y, r1) ← read4 s.toList
  let r2 ← expectChar '-' r1
  let (mo, r3) ← read2 r2
  let r4 ← expectChar '-' r3
  let (d, r5) ← read2 r4
  let r6 ← expectChar 'T' r5
  let (h, r7) ← read2 r6
  let r8 ← expectChar ':' r7
  let (mi, r9) ← read2 r8
  let (sec, mil, r10) ← parseSecFrac r9
  let off ← parseOffsetMinutes r10
  if 1 ≤ mo ∧ mo ≤ 12 ∧ 1 ≤ d ∧ d ≤ daysInMonth y mo ∧ h ≤ 23 ∧ mi ≤ 59 ∧ sec ≤ 59 then
    some ⟨y, mo, d, h, mi, sec, mil, off⟩
  else none

/-- Epoch milliseconds (UTC) of parsed date fields: local fields minus the
UTC offset. -/
def partsToUtcMs (p : DateParts) : Int :=
  daysFromCivil (p.year : Int) (p.month : Int) (p.day : Int) * 86400000
    + ((p.hour * 3600000 + p.minute * 60000 + p.second * 1000 + p.millis : ℕ) : Int)
    - p.offsetMinutes * 60000

/-- Smallest modelled instant: 0000-01-01T00:00:00.000Z. -/
def minValidMs : Int := daysFromCivil 0 1 1 * 86400000

/-- Largest modelled instant: 9999-12-31T23:59:59.999Z. -/
def maxValidMs : Int := daysFromCivil 9999 12 31 * 86400000 + 86399999

/-- Model of `new Date(string)` for this program's timestamps: ISO-8601
date-time with an explicit offset (`Z` or numeric). The host-local-timezone
interpretation of offset-less strings and non-ISO host-specific formats are
outside the model, as are instants beyond 4-digit years; "parseable by the
normalizer" in the claims is read against this model. -/
def jsDateParse (s : String) : Option Int :=
  match parseDateParts s with
  | none => none
  | some p =>
    let ms := partsToUtcMs p
    if minValidMs ≤ ms ∧ ms ≤ maxValidMs then some ms else none

/-- Embedding of the source `parseTimestamp`: `new Date(str)` then
`toISOString()`. A failure (unparseable string) is `none`, modelling the
thrown-and-rethrown error. The source's trailing
`replace` of extra fraction digits is the identity on `toISOString` output
(always exactly three digits) and is therefore absorbed. -/
def parseTimestamp (timestampStr : String) : Option String :=
  (jsDateParse timestampStr).map toISOString

/-- `parseTimestamp` applied to a row field that may be absent (JS
`undefined`): `new Date(undefined)` is an invalid date, so normalization
fails. -/
def parseTimestampField : Option String → Option String
  | none => none
  | some s => parseTimestamp s

/-- Characters of a string with leading and trailing whitespace removed
(model of the JS builtin `String.prototype.trim`). -/
def trimChars (cs : List Char) : List Char :=
  ((cs.dropWhile Char.isWhitespace).reverse.dropWhile Char.isWhitespace).reverse

/-- Model of the JS builtin `String.prototype.trim`. -/
def jsTrim (s : String) : String := String.mk (trimChars s.toList)

/-- Split a character list at every occurrence of a separator character;
an empty input yields one empty piece, matching JS `split`. -/
def splitChars (sep : Char) : List Char → List (List Char)
  | [] => [[]]
  | c :: rest =>
    let r := splitChars sep rest
    if c = sep then [] :: r
    else (c :: r.headD []) :: r.tail

/-- Model of the JS builtin `String.prototype.split` with a single-character
separator string. -/
def jsSplit (s : String) (sep : Char) : List String :=
  (splitChars sep s.toList).map String.mk

deriving instance DecidableEq for Except

/-- A parsed track point, one per valid input row (source: the object
literal built in `parseCSV`). -/
structure TrackPoint where
  timestamp : String
  latitude : JSNum
  longitude : JSNum
  sog_kts : JSNum
  cog : JSNum
  hdg_true : JSNum
  heel : JSNum
  trim : JSNum
deriving Repr, DecidableEq

/-- Remove every double-quote character (model of the source's
`.replace(/"/g, '')`, a global regex replace). -/
def removeQuoteChars : List Char → List Char
  | [] => []
  | c :: rest => if c = '"' then removeQuoteChars rest else c :: removeQuoteChars rest

/-- Token cleaning applied to every header token and data value:
`v.trim().replace(/"/g, '')` (source lines 59 and 70). -/
def cleanToken (t : String) : String := String.mk (removeQuoteChars (jsTrim t).toList)

/-- Header names of the header line: split on comma, then clean each token
(source line 59). -/
def headerNames (header : String) : List String :=
  (jsSplit header ',').map cleanToken

/-- Values of a data line: split on comma, then clean each token (source
line 70). -/
def lineValues (line : String) : List String :=
  (jsSplit line ',').map cleanToken

/-- The required column names (source `expectedColumns`). -/
def expectedColumns : List String :=
  ["timestamp", "latitude", "longitude", "sog_kts", "cog", "hdg_true", "heel", "trim"]

/-- Field access on the row object built by
`headers.forEach((header, index) => row[header] = values[index])`: each
assignment overwrites, so a later duplicate header wins; an absent key is
JS `undefined`, modelled as `none`. -/
def rowLookup (headers values : List String) (key : String) : Option String :=
  (headers.zip values).foldl (fun acc hv => if hv.1 = key then some hv.2 else acc) none

/-- One iteration of the row loop of `parseCSV` (source lines 69-101):
`none` when the row is skipped (ragged row, unparseable timestamp, or NaN
latitude/longitude), otherwise the constructed point. -/
def parseRow (headers : List String) (line : String) : Option TrackPoint :=
  let values := lineValues line
  if values.length ≠ headers.length then none
  else
    match parseTimestampField (rowLookup headers values "timestamp") with
    | none => none
    | some ts =>
      let point : TrackPoint :=
        { timestamp := ts
          latitude := parseFloatField (rowLookup headers values "latitude")
          longitude := parseFloatField (rowLookup headers values "longitude")
          sog_kts := parseFloatField (rowLookup headers values "sog_kts")
          cog := parseFloatField (rowLookup headers values "cog")
          hdg_true := parseFloatField (rowLookup headers values "hdg_true")
          heel := parseFloatField (rowLookup headers values "heel")
          trim := parseFloatField (rowLookup headers values "trim") }
      if point.latitude.isNaN || point.longitude.isNaN then none
      else some point

/-- Embedding of the source `parseCSV` (lines 53-108). Thrown errors are
`Except.error` with the source's message; the `points.push` loop is the
`filterMap` of `parseRow` over the data lines. -/
def parseCSV (csvText : String) : Except String (List TrackPoint) :=
  let lines := jsSplit (jsTrim csvText) '\n'
  if lines.length < 2 then
    .error "CSV file must contain header and at least one data row"
  else
    let headers := headerNames (lines.headD "")
    let missingColumns := expectedColumns.filter (fun col => ¬ headers.contains col)
    if missingColumns.length > 0 then
      .error ("CSV missing required columns: " ++ String.intercalate ", " missingColumns)
    else
      let points := (lines.drop 1).filterMap (parseRow headers)
      if points.length = 0 then
        .error "No valid data points found in CSV file"
      else
        .ok points

/-- The fixed document prefix of `createGPXXML` (source lines 27-30). -/
def gpxHeader : String :=
  "<?xml version=\"1.0\" encoding=\"UTF-8\"?>\n<gpx version=\"1.1\" creator=\"csv_to_gpx_converter_web\" xmlns=\"http://www.topografix.com/GPX/1/1\">\n<trk>\n<trkseg>"

/-- The fixed document suffix of `createGPXXML` (source lines 44-47). -/
def gpxFooter : String := "\n</trkseg>\n</trk>\n</gpx>"

/-- The `<trkpt>` fragment appended for one point (source lines 33-41);
template-literal interpolation of a numeric field is `numToString`. -/
def trkptXML (p : TrackPoint) : String :=
  "\n<trkpt lat=\"" ++ numToString p.latitude ++ "\" lon=\"" ++ numToString p.longitude ++
  "\">\n<ele>" ++ numToString p.hdg_true ++ "</ele>\n<time>" ++ p.timestamp ++
  "</time>\n<cog>" ++ numToString p.cog ++ "</cog>\n<hdg_true>" ++ numToString p.hdg_true ++
  "</hdg_true>\n<heel>" ++ numToString p.heel ++ "</heel>\n<trim>" ++ numToString p.trim ++
  "</trim>\n</trkpt>"

/-- Embedding of the source `createGPXXML` (lines 26-50): start from the
fixed prefix, append one fragment per point with `forEach` (a left fold),
then append the fixed suffix. -/
def createGPXXML (points : List TrackPoint) : String :=
  (points.foldl (fun acc p => acc ++ trkptXML p) gpxHeader) ++ gpxFooter

/-- Does the filename end, case-insensitively, in `.csv`? (the test of the
source regex `/\.csv$/i`, source line 138). -/
def csvSuffixCI (name : String) : Bool :=
  (name.toList.map Char.toLower).reverse.take 4 = ['v', 's', 'c', '.']

/-- The orchestrator's suggested output filename (source line 138):
`file.name.replace(/\.csv$/i, '_converted.gpx')` — replace a trailing
case-insensitive `.csv` with `_converted.gpx`, otherwise leave the name
unchanged. -/
def outputFilename (name : String) : String :=
  if csvSuffixCI name then name.dropRight 4 ++ "_converted.gpx" else name

/-- Decidable format check for the claimed canonical timestamp shape
`YYYY-MM-DDTHH:mm:ss.sssZ`: 24 characters, digits at the component
positions, the literal separators, exactly three fractional-second digits,
and a literal final `Z`. Stated from the spec's wording, to be compared
with what `parseTimestamp` produces. -/
def isCanonicalIso (s : String) : Bool :=
  match s.toList with
  | [y1, y2, y3, y4, '-', a1, a2, '-', b1, b2, 'T', h1, h2, ':', m1, m2, ':', s1, s2, '.',
     f1, f2, f3, 'Z'] =>
    y1.isDigit && y2.isDigit && y3.isDigit && y4.isDigit && a1.isDigit && a2.isDigit &&
    b1.isDigit && b2.isDigit && h1.isDigit && h2.isDigit && m1.isDigit && m2.isDigit &&
    s1.isDigit && s2.isDigit && f1.isDigit && f2.isDigit && f3.isDigit
  | _ => false

/-! Helper lemmas. -/

theorem digitChar_isDigit (n : ℕ) : (digitChar n).isDigit = true := by
  unfold digitChar
  split_ifs <;> rfl

theorem isCanonicalIso_mk (y1 y2 y3 y4 a1 a2 b1 b2 h1 h2 m1 m2 s1 s2 f1 f2 f3 : Char) :
    isCanonicalIso (String.mk [y1, y2, y3, y4, '-', a1, a2, '-', b1, b2, 'T', h1, h2, ':',
      m1, m2, ':', s1, s2, '.', f1, f2, f3, 'Z']) =
    (y1.isDigit && y2.isDigit && y3.isDigit && y4.isDigit && a1.isDigit && a2.isDigit &&
     b1.isDigit && b2.isDigit && h1.isDigit && h2.isDigit && m1.isDigit && m2.isDigit &&
     s1.isDigit && s2.isDigit && f1.isDigit && f2.isDigit && f3.isDigit) := rfl

theorem isCanonicalIso_toISOString (ms : Int) : isCanonicalIso (toISOString ms) = true := by
  show isCanonicalIso (String.mk (toISOChars ms)) = true
  simp only [toISOChars]
  rw [isCanonicalIso_mk]
  simp [digitChar_isDigit]

theorem parseTimestamp_canonical (s ts : String) (h : parseTimestamp s = some ts) :
    isCanonicalIso ts = true := by
  unfold parseTimestamp at h
  cases hj : jsDateParse s with
  | none => rw [hj] at h; simp at h
  | some ms =>
    rw [hj] at h
    have hts : toISOString ms = ts := by simpa using h
    rw [← hts]
    exact isCanonicalIso_toISOString ms

theorem parseTimestampField_canonical (o : Option String) (ts : String)
    (h : parseTimestampField o = some ts) : isCanonicalIso ts = true := by
  cases o with
  | none => simp [parseTimestampField] at h
  | some s => exact parseTimestamp_canonical s ts h

theorem JSNum.isNaN_eq_false_of_finite (x : JSNum) (h : x.isFinite = true) :
    x.isNaN = false := by
  cases x <;> simp_all [JSNum.isFinite, JSNum.isNaN]

theorem string_append_assoc (a b c : String) : a ++ b ++ c = a ++ (b ++ c) := by
  cases a with
  | mk la =>
    cases b with
    | mk lb =>
      cases c with
      | mk lc =>
        show String.mk (la ++ lb ++ lc) = String.mk (la ++ (lb ++ lc))
        rw [List.append_assoc]

theorem string_foldl_append (l : List String) :
    ∀ init : String, l.foldl (fun r s => r ++ s) init = init ++ l.foldl (fun r s => r ++ s) "" := by
  induction l with
  | nil => intro init; simp [List.foldl, String.append_empty]
  | cons x xs ih =>
    intro init
    simp only [List.foldl]
    rw [ih (init ++ x), ih ("" ++ x), String.empty_append, string_append_assoc]

theorem foldl_append_join (f : TrackPoint → String) (l : List TrackPoint) (init : String) :
    l.foldl (fun acc p => acc ++ f p) init = init ++ String.join (l.map f) := by
  have key : ∀ (l : List TrackPoint) (init : String),
      l.foldl (fun acc p => acc ++ f p) init = init ++ (l.map f).foldl (fun r s => r ++ s) "" := by
    intro l
    induction l with
    | nil => intro init; simp [List.foldl, String.append_empty]
    | cons x xs ih =>
      intro init
      simp only [List.foldl, List.map]
      rw [ih (init ++ f x), string_foldl_append ((xs.map f)) ("" ++ f x),
        String.empty_append, string_append_assoc]
  exact key l init

theorem filterMap_length_of_isSome {α β : Type} (f : α → Option β) :
    ∀ l : List α, (∀ x ∈ l, (f x).isSome = true) → (l.filterMap f).length = l.length := by
  intro l
  induction l with
  | nil => intro _; rfl
  | cons x xs ih =>
    intro h
    cases hx : f x with
    | none => have := h x (by simp); rw [hx] at this; simp at this
    | some b =>
      rw [List.filterMap_cons_some hx]
      simp only [List.length_cons]
      rw [ih (fun y hy => h y (List.mem_cons_of_mem x hy))]

theorem filterMap_map_some {α β : Type} (f : α → Option β) :
    ∀ l : List α, (∀ x ∈ l, (f x).isSome = true) →
      (l.filterMap f).map some = l.map f := by
  intro l
  induction l with
  | nil => intro _; rfl
  | cons x xs ih =>
    intro h
    cases hx : f x with
    | none => have := h x (by simp); rw [hx] at this; simp at this
    | some b =>
      rw [List.filterMap_cons_some hx]
      simp only [List.map_cons]
      rw [ih (fun y hy => h y (List.mem_cons_of_mem x hy)), hx]

theorem parseRow_eq_none_of_ragged (headers : List String) (line : String)
    (h : (lineValues line).length ≠ headers.length) :
    parseRow headers line = none := by
  simp only [parseRow]
  rw [if_pos h]

theorem parseRow_eq_none_of_nan (headers : List String) (line : String)
    (h : (parseFloatField (rowLookup headers (lineValues line) "latitude")).isNaN = true ∨
      (parseFloatField (rowLookup headers (lineValues line) "longitude")).isNaN = true) :
    parseRow headers line = none := by
  by_cases hlen : (lineValues line).length ≠ headers.length
  · exact parseRow_eq_none_of_ragged headers line hlen
  · simp only [parseRow, if_neg hlen]
    cases hts : parseTimestampField (rowLookup headers (lineValues line) "timestamp") with
    | none => rfl
    | some ts =>
      have hcond : ((parseFloatField (rowLookup headers (lineValues line) "latitude")).isNaN ||
          (parseFloatField (rowLookup headers (lineValues line) "longitude")).isNaN) = true := by
        rcases h with h | h <;> simp [h]
      simp [hcond]

theorem parseRow_isSome_of_valid (headers : List String) (line : String)
    (hlen : (lineValues line).length = headers.length)
    (hts : (parseTimestampField (rowLookup headers (lineValues line) "timestamp")).isSome = true)
    (hlat : (parseFloatField (rowLookup headers (lineValues line) "latitude")).isNaN = false)
    (hlon : (parseFloatField (rowLookup headers (lineValues line) "longitude")).isNaN = false) :
    (parseRow headers line).isSome = true := by
  obtain ⟨ts, hts⟩ := Option.isSome_iff_exists.mp hts
  have hne : ¬((lineValues line).length ≠ headers.length) := fun hc => hc hlen
  simp only [parseRow, if_neg hne, hts]
  simp [hlat, hlon]

theorem parseRow_some_inv (headers : List String) (line : String) (p : TrackPoint)
    (h : parseRow headers line = some p) :
    p.latitude.isNaN = false ∧ p.longitude.isNaN = false ∧
    parseTimestampField (rowLookup headers (lineValues line) "timestamp") = some p.timestamp := by
  by_cases hlen : (lineValues line).length ≠ headers.length
  · rw [parseRow_eq_none_of_ragged headers line hlen] at h
    exact absurd h (by simp)
  · simp only [parseRow, if_neg hlen] at h
    split at h
    · exact absurd h (by simp)
    · rename_i ts hts
      split at h
      · exact absurd h (by simp)
      · rename_i hcond
        have hp := Option.some_inj.mp h
        rw [← hp]
        simp only [Bool.or_eq_true, not_or, Bool.not_eq_true] at hcond
        exact ⟨hcond.1, hcond.2, hts⟩

theorem parseCSV_short (csvText : String)
    (h : (jsSplit (jsTrim csvText) '\n').length < 2) :
    parseCSV csvText = .error "CSV file must contain header and at least one data row" := by
  simp only [parseCSV]
  rw [if_pos h]

theorem parseCSV_missing_cols (csvText : String)
    (h2 : ¬ (jsSplit (jsTrim csvText) '\n').length < 2)
    (hm : 0 < (expectedColumns.filter
      (fun col => ¬ (headerNames ((jsSplit (jsTrim csvText) '\n').headD "")).contains col)).length) :
    parseCSV csvText = .error ("CSV missing required columns: " ++
      String.intercalate ", " (expectedColumns.filter
        (fun col => ¬ (headerNames ((jsSplit (jsTrim csvText) '\n').headD "")).contains col))) := by
  simp only [parseCSV]
  rw [if_neg h2, if_pos hm]

theorem parseCSV_rows (csvText : String)
    (h2 : ¬ (jsSplit (jsTrim csvText) '\n').length < 2)
    (hm : ¬ 0 < (expectedColumns.filter
      (fun col => ¬ (headerNames ((jsSplit (jsTrim csvText) '\n').headD "")).contains col)).length) :
    parseCSV csvText =
      (if (((jsSplit (jsTrim csvText) '\n').drop 1).filterMap
            (parseRow (headerNames ((jsSplit (jsTrim csvText) '\n').headD "")))).length = 0 then
        .error "No valid data points found in CSV file"
      else
        .ok (((jsSplit (jsTrim csvText) '\n').drop 1).filterMap
          (parseRow (headerNames ((jsSplit (jsTrim csvText) '\n').headD ""))))) := by
  simp only [parseCSV]
  rw [if_neg h2, if_neg hm]

theorem csvSuffixCI_iff (name : String) :
    csvSuffixCI name = true ↔ ['.', 'c', 's', 'v'] <:+ name.toList.map Char.toLower := by
  unfold csvSuffixCI
  rw [decide_eq_true_eq]
  constructor
  · intro h
    have hp : ['.', 'c', 's', 'v'].reverse <+: (name.toList.map Char.toLower).reverse := by
      rw [List.prefix_iff_eq_take]
      simpa using h.symm
    exact List.reverse_prefix.mp hp
  · intro h
    have hp := List.reverse_prefix.mpr h
    rw [List.prefix_iff_eq_take] at hp
    simpa using hp.symm

theorem removeQuoteChars_eq_filter (l : List Char) :
    removeQuoteChars l = l.filter (fun c => c != '"') := by
  induction l with
  | nil => rfl
  | cons c rest ih =>
    by_cases hc : c = '"'
    · simp [removeQuoteChars, hc, List.filter_cons, ih]
    · simp [removeQuoteChars, hc, List.filter_cons, ih]

/-! Claim theorems. -/

/-- C2: serializing N track points produces exactly N trkpt elements, in
input order, each carrying latitude and longitude as the lat/lon
attributes and its ele child populated with the hdg_true value. -/
theorem claim2_serialize_trkpt_per_point (points : List TrackPoint) :
    createGPXXML points = gpxHeader ++ String.join (points.map trkptXML) ++ gpxFooter ∧
    (points.map trkptXML).length = points.length ∧
    ∀ p : TrackPoint,
      trkptXML p =
        "\n<trkpt lat=\"" ++ numToString p.latitude ++ "\" lon=\"" ++ numToString p.longitude ++
        "\">\n<ele>" ++ numToString p.hdg_true ++ "</ele>\n<time>" ++ p.timestamp ++
        "</time>\n<cog>" ++ numToString p.cog ++ "</cog>\n<hdg_true>" ++
        numToString p.hdg_true ++ "</hdg_true>\n<heel>" ++ numToString p.heel ++
        "</heel>\n<trim>" ++ numToString p.trim ++ "</trim>\n</trkpt>" := by
  refine ⟨?_, by simp, fun p => rfl⟩
  unfold createGPXXML
  rw [foldl_append_join trkptXML points gpxHeader]

/-- C3: every timestamp accepted by the normalizer is rendered as a
canonical UTC instant, `YYYY-MM-DDTHH:mm:ss.sssZ` with exactly three
fractional-second digits and a literal `Z`; in particular the `+0400`
example is converted to `04:07:30.060Z`. -/
theorem claim3_normalize_utc_format :
    (∀ s out : String, parseTimestamp s = some out → isCanonicalIso out = true) ∧
    parseTimestamp "2025-11-20T08:07:30.060+0400" = some "2025-11-20T04:07:30.060Z" :=
  ⟨fun s out h => parseTimestamp_canonical s out h, by decide⟩

theorem claim3_witness : isCanonicalIso "2025-11-20T04:07:30.060Z" = true :=
  claim3_normalize_utc_format.1 "2025-11-20T08:07:30.060+0400" "2025-11-20T04:07:30.060Z"
    claim3_normalize_utc_format.2

/-- C4 counterexample: a data row whose latitude parses to positive
infinity is NOT excluded — the `isNaN` coordinate check accepts
infinities — so with one infinite-latitude row and one valid row, parse
returns both points, the first carrying a non-finite latitude. -/
theorem claim4_counterexample :
    parseCSV "timestamp,latitude,longitude,sog_kts,cog,hdg_true,heel,trim\n2025-11-20T08:07:30.060+0400,Infinity,55.5,1.5,180,175,5,2\n2025-11-20T08:07:31+0400,25.5,55.5,1.5,180,175,5,2" =
      .ok [⟨"2025-11-20T04:07:30.060Z", .inf, .num (mkRat 111 2), .num (mkRat 3 2),
            .num (mkRat 180 1), .num (mkRat 175 1), .num (mkRat 5 1), .num (mkRat 2 1)⟩,
           ⟨"2025-11-20T04:07:31.000Z", .num (mkRat 51 2), .num (mkRat 111 2), .num (mkRat 3 2),
            .num (mkRat 180 1), .num (mkRat 175 1), .num (mkRat 5 1), .num (mkRat 2 1)⟩] ∧
    JSNum.inf.isFinite = false := by
  exact ⟨by decide, rfl⟩

/-- C4 amended: only a latitude or longitude that parses to NaN causes the
row to be excluded (silently, as a skip); a TrackPoint is constructed
whenever both parse to non-NaN values, so infinite coordinates are
accepted into the output. -/
theorem claim4_nan_only_excluded (headers : List String) (line : String) :
    (∀ p : TrackPoint, parseRow headers line = some p →
      p.latitude.isNaN = false ∧ p.longitude.isNaN = false) ∧
    ((parseFloatField (rowLookup headers (lineValues line) "latitude")).isNaN = true ∨
      (parseFloatField (rowLookup headers (lineValues line) "longitude")).isNaN = true →
      parseRow headers line = none) :=
  ⟨fun p h => ⟨(parseRow_some_inv headers line p h).1, (parseRow_some_inv headers line p h).2.1⟩,
   fun h => parseRow_eq_none_of_nan headers line h⟩

theorem claim4_witness :
    parseRow expectedColumns "2025-11-20T08:07:30.060+0400,abc,55.5,1.5,180,175,5,2" = none :=
  (claim4_nan_only_excluded expectedColumns
    "2025-11-20T08:07:30.060+0400,abc,55.5,1.5,180,175,5,2").2 (Or.inl (by decide))

/-- C7 counterexample: token cleaning removes interior double quotes too
(the source uses a global regex replace), so a token with an interior
quote is not left unchanged as the claim states. -/
theorem claim7_counterexample :
    cleanToken "ab\"cd" = "abcd" ∧ cleanToken "ab\"cd" ≠ "ab\"cd" := by
  exact ⟨by decide, by decide⟩

/-- C7 amended: every header token and data value is trimmed of
whitespace and then stripped of ALL double-quote characters, interior ones
included; a token containing no double quote at all is only trimmed. -/
theorem claim7_quote_stripping (t : String) :
    cleanToken t = String.mk ((jsTrim t).toList.filter (fun c => c != '"')) ∧
    ('"' ∉ (jsTrim t).toList → cleanToken t = jsTrim t) ∧
    ∀ c ∈ (cleanToken t).toList, c ≠ '"' := by
  have hbase : cleanToken t = String.mk ((jsTrim t).toList.filter (fun c => c != '"')) := by
    unfold cleanToken
    rw [removeQuoteChars_eq_filter]
  refine ⟨hbase, ?_, ?_⟩
  · intro hq
    rw [hbase, List.filter_eq_self.mpr ?_]
    · rfl
    · intro a ha
      simp only [bne_iff_ne, ne_eq]
      exact fun e => hq (e ▸ ha)
  · intro c hc
    rw [hbase] at hc
    have : c ∈ (jsTrim t).toList.filter (fun c => c != '"') := hc
    simp only [List.mem_filter, bne_iff_ne, ne_eq] at this
    exact this.2

theorem claim7_witness : cleanToken "  x y  " = jsTrim "  x y  " :=
  (claim7_quote_stripping "  x y  ").2.1 (by decide)

/-- C9: the suggested output filename replaces a trailing
case-insensitive `.csv` with `_converted.gpx`, and otherwise passes the
name through unchanged; `track.CSV` maps to `track_converted.gpx` and
`track.csv.bak` is unchanged. -/
theorem claim9_suggested_filename :
    (∀ name : String,
      (['.', 'c', 's', 'v'] <:+ name.toList.map Char.toLower →
        outputFilename name = name.dropRight 4 ++ "_converted.gpx") ∧
      (¬ ['.', 'c', 's', 'v'] <:+ name.toList.map Char.toLower →
        outputFilename name = name)) ∧
    outputFilename "track.CSV" = "track_converted.gpx" ∧
    outputFilename "track.csv.bak" = "track.csv.bak" := by
  refine ⟨fun name => ⟨?_, ?_⟩, by decide, by decide⟩
  · intro h
    unfold outputFilename
    rw [if_pos ((csvSuffixCI_iff name).mpr h)]
  · intro h
    unfold outputFilename
    rw [if_neg (fun hb => h ((csvSuffixCI_iff name).mp hb))]

theorem claim9_witness : outputFilename "log.Csv" = "log" ++ "_converted.gpx" :=
  ((claim9_suggested_filename.1 "log.Csv").1 (by decide)).trans (by decide)

theorem parseCSV_ok_inv (csvText : String) (pts : List TrackPoint)
    (h : parseCSV csvText = .ok pts) :
    pts = ((jsSplit (jsTrim csvText) '\n').drop 1).filterMap
      (parseRow (headerNames ((jsSplit (jsTrim csvText) '\n').headD ""))) := by
  by_cases h2 : (jsSplit (jsTrim csvText) '\n').length < 2
  · rw [parseCSV_short csvText h2] at h
    exact absurd h (by simp)
  · by_cases hm : 0 < (expectedColumns.filter
      (fun col => ¬ (headerNames ((jsSplit (jsTrim csvText) '\n').headD "")).contains col)).length
    · rw [parseCSV_missing_cols csvText h2 hm] at h
      exact absurd h (by simp)
    · rw [parseCSV_rows csvText h2 hm] at h
      split at h
      · exact absurd h (by simp)
      · simpa using h.symm

/-- C1: for CSV input whose header contains all required columns and whose
data rows each have a column count equal to the header's, a timestamp the
normalizer accepts, and finite parsed latitude and longitude, parse
returns exactly one track point per data row, in the original row order. -/
theorem claim1_all_valid_rows_parsed
    (csvText header : String) (dataLines : List String)
    (hsplit : jsSplit (jsTrim csvText) '\n' = header :: dataLines)
    (hne : dataLines ≠ [])
    (hcols : ∀ col ∈ expectedColumns, (headerNames header).contains col = true)
    (hrows : ∀ line ∈ dataLines,
      (lineValues line).length = (headerNames header).length ∧
      (parseTimestampField (rowLookup (headerNames header) (lineValues line)
        "timestamp")).isSome = true ∧
      (parseFloatField (rowLookup (headerNames header) (lineValues line)
        "latitude")).isFinite = true ∧
      (parseFloatField (rowLookup (headerNames header) (lineValues line)
        "longitude")).isFinite = true) :
    ∃ pts : List TrackPoint,
      parseCSV csvText = .ok pts ∧
      pts.length = dataLines.length ∧
      pts.map some = dataLines.map (parseRow (headerNames header)) := by
  have hpos : 0 < dataLines.length := List.length_pos.mpr hne
  have hlen2 : ¬ (jsSplit (jsTrim csvText) '\n').length < 2 := by
    rw [hsplit]
    simp only [List.length_cons]
    omega
  have hhead : (jsSplit (jsTrim csvText) '\n').headD "" = header := by rw [hsplit]; rfl
  have hdrop : (jsSplit (jsTrim csvText) '\n').drop 1 = dataLines := by rw [hsplit]; rfl
  have hsome : ∀ line ∈ dataLines, (parseRow (headerNames header) line).isSome = true := by
    intro line hl
    obtain ⟨hl1, hl2, hl3, hl4⟩ := hrows line hl
    exact parseRow_isSome_of_valid (headerNames header) line hl1 hl2
      (JSNum.isNaN_eq_false_of_finite _ hl3) (JSNum.isNaN_eq_false_of_finite _ hl4)
  have hlenfm : (dataLines.filterMap (parseRow (headerNames header))).length = dataLines.length :=
    filterMap_length_of_isSome _ dataLines hsome
  have hmiss : (expectedColumns.filter
      (fun col => ¬ (headerNames ((jsSplit (jsTrim csvText) '\n').headD "")).contains col)) = [] := by
    rw [hhead]
    rw [List.filter_eq_nil_iff]
    intro col hc
    simpa using hcols col hc
  have hm0 : ¬ 0 < (expectedColumns.filter
      (fun col => ¬ (headerNames ((jsSplit (jsTrim csvText) '\n').headD "")).contains col)).length := by
    rw [hmiss]
    simp
  refine ⟨dataLines.filterMap (parseRow (headerNames header)), ?_, hlenfm,
    filterMap_map_some _ dataLines hsome⟩
  rw [parseCSV_rows csvText hlen2 hm0, hhead, hdrop]
  have hne2 : ¬ ((dataLines.filterMap (parseRow (headerNames header))).length = 0) := by
    rw [hlenfm]
    omega
  rw [if_neg hne2]

theorem claim1_witness :
    ∃ pts : List TrackPoint,
      parseCSV "timestamp,latitude,longitude,sog_kts,cog,hdg_true,heel,trim\n2025-11-20T08:07:30.060+0400,25.5,55.5,1.5,180,175,5,2\n2025-11-20T08:07:31+0400,25.6,55.6,1.6,181,176,6,3" = .ok pts ∧
      pts.length = ["2025-11-20T08:07:30.060+0400,25.5,55.5,1.5,180,175,5,2",
        "2025-11-20T08:07:31+0400,25.6,55.6,1.6,181,176,6,3"].length ∧
      pts.map some = ["2025-11-20T08:07:30.060+0400,25.5,55.5,1.5,180,175,5,2",
        "2025-11-20T08:07:31+0400,25.6,55.6,1.6,181,176,6,3"].map
          (parseRow (headerNames "timestamp,latitude,longitude,sog_kts,cog,hdg_true,heel,trim")) :=
  claim1_all_valid_rows_parsed
    "timestamp,latitude,longitude,sog_kts,cog,hdg_true,heel,trim\n2025-11-20T08:07:30.060+0400,25.5,55.5,1.5,180,175,5,2\n2025-11-20T08:07:31+0400,25.6,55.6,1.6,181,176,6,3"
    "timestamp,latitude,longitude,sog_kts,cog,hdg_true,heel,trim"
    ["2025-11-20T08:07:30.060+0400,25.5,55.5,1.5,180,175,5,2",
     "2025-11-20T08:07:31+0400,25.6,55.6,1.6,181,176,6,3"]
    (by decide) (by decide) (by decide) (by decide)

/-- C5: parse fails exactly when the trimmed text has fewer than 2 lines,
when required columns are missing, or when no valid row survives; in every
other case it returns the non-empty surviving point list, never partial
output together with an error. -/
theorem claim5_error_cases (csvText : String)
    (lines missing : List String) (pts : List TrackPoint)
    (hl : lines = jsSplit (jsTrim csvText) '\n')
    (hm : missing = expectedColumns.filter
      (fun col => ¬ (headerNames (lines.headD "")).contains col))
    (hp : pts = (lines.drop 1).filterMap (parseRow (headerNames (lines.headD "")))) :
    (lines.length < 2 →
      parseCSV csvText = .error "CSV file must contain header and at least one data row") ∧
    (¬ lines.length < 2 → missing ≠ [] →
      parseCSV csvText =
        .error ("CSV missing required columns: " ++ String.intercalate ", " missing)) ∧
    (¬ lines.length < 2 → missing = [] → pts = [] →
      parseCSV csvText = .error "No valid data points found in CSV file") ∧
    (¬ lines.length < 2 → missing = [] → pts ≠ [] →
      parseCSV csvText = .ok pts ∧ pts ≠ []) := by
  subst hl
  subst hm
  subst hp
  refine ⟨fun h => parseCSV_short csvText h, fun h2 hne => ?_, fun h2 hm0 hp0 => ?_,
    fun h2 hm0 hpne => ?_⟩
  · exact parseCSV_missing_cols csvText h2 (List.length_pos.mpr hne)
  · rw [parseCSV_rows csvText h2 (by rw [hm0]; simp)]
    rw [if_pos (by rw [hp0]; rfl)]
  · rw [parseCSV_rows csvText h2 (by rw [hm0]; simp)]
    rw [if_neg (by simpa using hpne)]
    exact ⟨rfl, hpne⟩

theorem claim5_witness :
    parseCSV "timestamp,latitude,longitude,sog_kts,cog,hdg_true,heel,trim" =
      .error "CSV file must contain header and at least one data row" :=
  (claim5_error_cases "timestamp,latitude,longitude,sog_kts,cog,hdg_true,heel,trim"
    _ _ _ rfl rfl rfl).1 (by decide)

/-- C6: when the header lacks required columns (and a data row is
present), parse fails with an error naming every missing column; a header
missing only cog fails naming cog. -/
theorem claim6_missing_columns_named :
    (∀ (csvText header : String) (dataLines : List String),
      jsSplit (jsTrim csvText) '\n' = header :: dataLines →
      dataLines ≠ [] →
      expectedColumns.filter (fun col => ¬ (headerNames header).contains col) ≠ [] →
      parseCSV csvText = .error ("CSV missing required columns: " ++
        String.intercalate ", "
          (expectedColumns.filter (fun col => ¬ (headerNames header).contains col))) ∧
      ∀ col ∈ expectedColumns, ¬ (headerNames header).contains col = true →
        col ∈ expectedColumns.filter (fun col => ¬ (headerNames header).contains col)) ∧
    parseCSV "timestamp,latitude,longitude,sog_kts,hdg_true,heel,trim\n1,2,3,4,5,6,7" =
      .error "CSV missing required columns: cog" := by
  constructor
  · intro csvText header dataLines hsplit hne hmiss
    have hhead : (jsSplit (jsTrim csvText) '\n').headD "" = header := by rw [hsplit]; rfl
    have h2 : ¬ (jsSplit (jsTrim csvText) '\n').length < 2 := by
      rw [hsplit]
      simp only [List.length_cons]
      have := List.length_pos.mpr hne
      omega
    constructor
    · have hres := parseCSV_missing_cols csvText h2 (by rw [hhead]; exact List.length_pos.mpr hmiss)
      rw [hhead] at hres
      exact hres
    · intro col hc hnc
      exact List.mem_filter.mpr ⟨hc, by simpa using hnc⟩
  · decide

theorem claim6_witness :
    parseCSV "a,b\nrow" = .error ("CSV missing required columns: " ++
      String.intercalate ", "
        (expectedColumns.filter (fun col => ¬ (headerNames "a,b").contains col))) ∧
    ∀ col ∈ expectedColumns, ¬ (headerNames "a,b").contains col = true →
      col ∈ expectedColumns.filter (fun col => ¬ (headerNames "a,b").contains col) :=
  claim6_missing_columns_named.1 "a,b\nrow" "a,b" ["row"] (by decide) (by decide) (by decide)

/-- C8: a data row whose value count differs from the header count is
skipped without error, and the remaining rows are processed exactly as
they would be with the ragged row absent. -/
theorem claim8_ragged_row_skipped
    (csvText csvText2 header ragged : String) (pre post : List String)
    (h1 : jsSplit (jsTrim csvText) '\n' = header :: (pre ++ ragged :: post))
    (h2 : jsSplit (jsTrim csvText2) '\n' = header :: (pre ++ post))
    (hrag : (lineValues ragged).length ≠ (headerNames header).length) :
    parseRow (headerNames header) ragged = none ∧
    (pre ++ ragged :: post).filterMap (parseRow (headerNames header)) =
      (pre ++ post).filterMap (parseRow (headerNames header)) ∧
    (pre ++ post ≠ [] → parseCSV csvText = parseCSV csvText2) := by
  have hnone := parseRow_eq_none_of_ragged (headerNames header) ragged hrag
  have hfm : (pre ++ ragged :: post).filterMap (parseRow (headerNames header)) =
      (pre ++ post).filterMap (parseRow (headerNames header)) := by
    rw [List.filterMap_append, List.filterMap_append, List.filterMap_cons, hnone]
  refine ⟨hnone, hfm, fun hne => ?_⟩
  have hh1 : (jsSplit (jsTrim csvText) '\n').headD "" = header := by rw [h1]; rfl
  have hh2 : (jsSplit (jsTrim csvText2) '\n').headD "" = header := by rw [h2]; rfl
  have hd1 : (jsSplit (jsTrim csvText) '\n').drop 1 = pre ++ ragged :: post := by rw [h1]; rfl
  have hd2 : (jsSplit (jsTrim csvText2) '\n').drop 1 = pre ++ post := by rw [h2]; rfl
  have hl1 : ¬ (jsSplit (jsTrim csvText) '\n').length < 2 := by
    rw [h1]
    simp only [List.length_cons, List.length_append]
    omega
  have hl2 : ¬ (jsSplit (jsTrim csvText2) '\n').length < 2 := by
    rw [h2]
    simp only [List.length_cons]
    have := List.length_pos.mpr hne
    omega
  by_cases hmiss : 0 < (expectedColumns.filter
      (fun col => ¬ (headerNames header).contains col)).length
  · rw [parseCSV_missing_cols csvText hl1 (by rw [hh1]; exact hmiss),
      parseCSV_missing_cols csvText2 hl2 (by rw [hh2]; exact hmiss), hh1, hh2]
  · rw [parseCSV_rows csvText hl1 (by rw [hh1]; exact hmiss),
      parseCSV_rows csvText2 hl2 (by rw [hh2]; exact hmiss), hh1, hh2, hd1, hd2, hfm]

theorem claim8_witness :
    parseCSV "timestamp,latitude,longitude,sog_kts,cog,hdg_true,heel,trim\n1,2\n2025-11-20T08:07:31+0400,25.5,55.5,1.5,180,175,5,2" =
      parseCSV "timestamp,latitude,longitude,sog_kts,cog,hdg_true,heel,trim\n2025-11-20T08:07:31+0400,25.5,55.5,1.5,180,175,5,2" :=
  (claim8_ragged_row_skipped
    "timestamp,latitude,longitude,sog_kts,cog,hdg_true,heel,trim\n1,2\n2025-11-20T08:07:31+0400,25.5,55.5,1.5,180,175,5,2"
    "timestamp,latitude,longitude,sog_kts,cog,hdg_true,heel,trim\n2025-11-20T08:07:31+0400,25.5,55.5,1.5,180,175,5,2"
    "timestamp,latitude,longitude,sog_kts,cog,hdg_true,heel,trim" "1,2"
    [] ["2025-11-20T08:07:31+0400,25.5,55.5,1.5,180,175,5,2"]
    (by decide) (by decide) (by decide)).2.2 (by decide)

/-- C10: every point parse returns has non-NaN latitude and longitude and
a timestamp that is exactly the normalizer's output for its row, in
canonical UTC form; the auxiliary numeric fields are not validated and may
be NaN. -/
theorem claim10_point_invariants :
    (∀ (csvText : String) (pts : List TrackPoint), parseCSV csvText = .ok pts →
      ∀ p ∈ pts,
        p.latitude.isNaN = false ∧ p.longitude.isNaN = false ∧
        isCanonicalIso p.timestamp = true ∧
        ∃ line ∈ (jsSplit (jsTrim csvText) '\n').drop 1,
          parseRow (headerNames ((jsSplit (jsTrim csvText) '\n').headD "")) line = some p ∧
          parseTimestampField (rowLookup (headerNames ((jsSplit (jsTrim csvText) '\n').headD ""))
            (lineValues line) "timestamp") = some p.timestamp) ∧
    (∃ pts : List TrackPoint,
      parseCSV "timestamp,latitude,longitude,sog_kts,cog,hdg_true,heel,trim\n2025-11-20T08:07:30.060+0400,25.5,55.5,abc,180,175,5,2" = .ok pts ∧
      ∀ p ∈ pts, p.sog_kts.isNaN = true) := by
  constructor
  · intro csvText pts h p hp
    rw [parseCSV_ok_inv csvText pts h] at hp
    obtain ⟨line, hline, hsome⟩ := List.mem_filterMap.mp hp
    obtain ⟨hlat, hlon, hts⟩ := parseRow_some_inv _ _ _ hsome
    exact ⟨hlat, hlon, parseTimestampField_canonical _ _ hts, line, hline, hsome, hts⟩
  · refine ⟨[⟨"2025-11-20T04:07:30.060Z", .num (mkRat 51 2), .num (mkRat 111 2), .nan,
      .num (mkRat 180 1), .num (mkRat 175 1), .num (mkRat 5 1), .num (mkRat 2 1)⟩],
      by decide, by decide⟩

theorem claim10_witness :
    ∀ p ∈ [(⟨"2025-11-20T04:07:30.060Z", .num (mkRat 51 2), .num (mkRat 111 2),
        .num (mkRat 3 2), .num (mkRat 180 1), .num (mkRat 175 1), .num (mkRat 5 1),
        .num (mkRat 2 1)⟩ : TrackPoint)],
      p.latitude.isNaN = false ∧ p.longitude.isNaN = false ∧
      isCanonicalIso p.timestamp = true ∧
      ∃ line ∈ (jsSplit (jsTrim "timestamp,latitude,longitude,sog_kts,cog,hdg_true,heel,trim\n2025-11-20T08:07:30.060+0400,25.5,55.5,1.5,180,175,5,2") '\n').drop 1,
        parseRow (headerNames ((jsSplit (jsTrim "timestamp,latitude,longitude,sog_kts,cog,hdg_true,heel,trim\n2025-11-20T08:07:30.060+0400,25.5,55.5,1.5,180,175,5,2") '\n').headD "")) line = some p ∧
        parseTimestampField (rowLookup
          (headerNames ((jsSplit (jsTrim "timestamp,latitude,longitude,sog_kts,cog,hdg_true,heel,trim\n2025-11-20T08:07:30.060+0400,25.5,55.5,1.5,180,175,5,2") '\n').headD ""))
          (lineValues line) "timestamp") = some p.timestamp :=
  claim10_point_invariants.1
    "timestamp,latitude,longitude,sog_kts,cog,hdg_true,heel,trim\n2025-11-20T08:07:30.060+0400,25.5,55.5,1.5,180,175,5,2"
    [⟨"2025-11-20T04:07:30.060Z", .num (mkRat 51 2), .num (mkRat 111 2), .num (mkRat 3 2),
      .num (mkRat 180 1), .num (mkRat 175 1), .num (mkRat 5 1), .num (mkRat 2 1)⟩]
    (by decide)
